import Mathlib

/-!
Shallow embedding of the storefront `app.py` (chuanghua_shop): the document
store helpers, catalog, session cart, checkout/order ledger and the CSV
export, together with proofs about the claims of the specification.

Modelling conventions:
* Python dict lookups `d.get(key, default)` on optional record fields are
  modelled by `Option` fields and `Option.getD`.
* The session cart (a Python dict `slug -> qty` with insertion order) is an
  association list `List (String × Int)` with `setKey`/`popKey`/`getD`
  mirroring `d[k] = v`, `d.pop(k, None)` and `d.get(k, 0)`.
* Python string operations (`strip`, `lower`, `split`, `replace`,
  `startswith`, slicing) are modelled character-wise over `String.data`,
  matching Python's view of a string as a character sequence.
* Numeric form fields that Python parses with `float(...)` are taken as
  already-parsed `Rat` inputs; random tokens (`secrets.token_hex`) and
  timestamps (`datetime.utcnow`) are explicit string inputs.
-/

namespace Chuanghua

/-- `max(1, min(q, 99))` as used by `cart_add` and `cart_update`. -/
def clamp99 (q : Int) : Int := max 1 (min q 99)

/-- Python `str.strip()`: remove whitespace from both ends. -/
def pyStrip (s : String) : String :=
  ⟨((s.data.dropWhile Char.isWhitespace).reverse.dropWhile Char.isWhitespace).reverse⟩

/-- Python `str.lower()` (character-wise lowering). -/
def pyLower (s : String) : String := ⟨s.data.map Char.toLower⟩

/-- `s[n:]`, dropping the first `n` characters. -/
def pyDrop (s : String) (n : Nat) : String := ⟨s.data.drop n⟩

/-- Python `s.startswith(head)`. -/
def pyStartsWith (s head : String) : Bool := head.data.isPrefixOf s.data

/-- Split a character sequence at every comma (empty pieces kept, as with
Python `str.split(",")`). -/
def splitComma : List Char → List (List Char)
  | [] => [[]]
  | c :: cs =>
    let r := splitComma cs
    if c = ',' then [] :: r
    else
      match r with
      | [] => [[c]]
      | g :: gs => (c :: g) :: gs

/-- Python `s.split(",")`. -/
def pySplitComma (s : String) : List String := (splitComma s.data).map String.mk

/-- Double every `"` character: Python `str.replace("\"", "\"\"")` for the
one-character pattern the export uses. -/
def escQuote : List Char → List Char
  | [] => []
  | c :: cs => if c = '"' then '"' :: '"' :: escQuote cs else c :: escQuote cs

/-- `(s or "").strip().lower()`, the slug normalisation applied throughout. -/
def normSlug (s : String) : String := pyLower (pyStrip s)

/-- A product record as produced by `admin_product` / stored in
`products.json`.  `active` and `price` are `Option` because the code reads
them with `p.get("active", True)` and `p.get("price") or 0`. -/
structure Product where
  slug : String
  active : Option Bool
  price : Option Rat
  title_zh : String
  title_en : String
  short_zh : String
  short_en : String
  desc_zh : String
  desc_en : String
  images : List String
  deriving Repr, DecidableEq

/-- `p.get("active", True)` coerced to a boolean. -/
def Product.activeD (p : Product) : Bool := p.active.getD true

/-- `float(p.get("price") or 0)` — a missing price reads as 0 (an explicit
price of 0 is also 0, so `getD` is exact here). -/
def Product.priceD (p : Product) : Rat := p.price.getD 0

/-- `_catalog(include_inactive)`:
`items if include_inactive else [p for p in items if p.get("active", True)]`. -/
def catalogList (includeInactive : Bool) (ps : List Product) : List Product :=
  if includeInactive then ps else ps.filter (fun p => p.activeD)

/-- `_find(slug)`: normalises the argument, then scans the full catalog
(inactive products included) for the first slug match. -/
def findSlug (ps : List Product) (slug : String) : Option Product :=
  let s := normSlug slug
  (catalogList true ps).find? (fun p => p.slug = s)

/-! ### Session cart -/

/-- The session cart: a Python dict `slug -> qty` in insertion order. -/
abbrev Cart := List (String × Int)

/-- `c[k] = v`: overwrite in place when the key is present (its position is
kept, as in a Python dict), otherwise append at the end. -/
def setKey (c : Cart) (k : String) (v : Int) : Cart :=
  if c.any (fun sq => sq.1 = k) then
    c.map (fun sq => if sq.1 = k then (k, v) else sq)
  else
    c ++ [(k, v)]

/-- `c.pop(k, None)`: drop the entry for `k` if present. -/
def popKey (c : Cart) (k : String) : Cart :=
  c.filter (fun sq => sq.1 ≠ k)

/-- `c.get(k, d)`. -/
def getD (c : Cart) (k : String) (d : Int) : Int :=
  match c.find? (fun sq => sq.1 = k) with
  | some sq => sq.2
  | none => d

/-- The `cart_add` handler restricted to its cart effect: the slug is
normalised, the incoming qty clamped to `[1, 99]`; when the slug does not
resolve, or resolves to an inactive product, the handler redirects and the
cart is untouched; otherwise `c[slug] = int(c.get(slug, 0)) + qty` — note
that the combined quantity is NOT re-clamped. -/
def cartAdd (ps : List Product) (c : Cart) (rawSlug : String) (rawQty : Int) : Cart :=
  let slug := normSlug rawSlug
  let qty := clamp99 rawQty
  match findSlug ps slug with
  | none => c
  | some p => if p.activeD then setKey c slug (getD c slug 0 + qty) else c

/-- One iteration of the `cart_update` loop: a form pair whose key does not
start with `qty_` is skipped; otherwise the slug is the key minus that
four-character head (Python's `k.replace("qty_", "", 1)` on a key that
starts with `qty_`); a value `n ≤ 0` pops the line, otherwise
`c[slug] = max(1, min(n, 99))`. -/
def cartUpdateStep (c : Cart) (kv : String × Int) : Cart :=
  if pyStartsWith kv.1 "qty_" then
    let slug := pyDrop kv.1 4
    if kv.2 ≤ 0 then popKey c slug else setKey c slug (clamp99 kv.2)
  else c

/-- The `cart_update` handler: `for k, v in request.form.items(): ...`. -/
def cartUpdate (form : List (String × Int)) (c : Cart) : Cart :=
  match form with
  | [] => c
  | kv :: rest => cartUpdate rest (cartUpdateStep c kv)

/-- One cart mutation, as reachable through the two cart routes. -/
inductive CartOp where
  | add (rawSlug : String) (rawQty : Int)
  | update (form : List (String × Int))
  deriving Repr

/-- Apply one cart route to the session cart. -/
def applyCartOp (ps : List Product) (c : Cart) : CartOp → Cart
  | .add s q => cartAdd ps c s q
  | .update form => cartUpdate form c

/-- Apply a sequence of cart routes. -/
def applyCartOps (ps : List Product) (c : Cart) : List CartOp → Cart
  | [] => c
  | op :: ops => applyCartOps ps (applyCartOp ps c op) ops

/-! ### Checkout and the order ledger -/

/-- One line of a checkout snapshot:
`{"slug": slug, "qty": int(qty), "price": price, "line_total": line}`. -/
structure LineItem where
  slug : String
  qty : Int
  price : Rat
  line_total : Rat
  deriving Repr, DecidableEq

/-- An order dict as written by `checkout`.  The dict stores the snapshot
under the key `"line_items"`; the separate field `items` models the dict key
`"items"`, which `checkout` never writes (so it is `none` on every order the
code creates) but which `export_orders` reads with `o.get("items")`. -/
structure Order where
  id : String
  created_at : String
  buyer_name : String
  buyer_contact : String
  address : String
  note : String
  line_items : List LineItem
  items : Option (List LineItem)
  total : Rat
  status : String
  lang : String
  deriving Repr, DecidableEq

/-- The snapshot loop of `checkout`: iterate the cart in order, skip slugs
that no longer resolve, price each line at `float(p.get("price") or 0)` and
accumulate the running total. -/
def snapshot (ps : List Product) (c : Cart) : List LineItem × Rat :=
  c.foldl
    (fun acc sq =>
      match findSlug ps sq.1 with
      | none => acc
      | some p =>
        let price := p.priceD
        let line := price * sq.2
        (acc.1 ++ [⟨sq.1, sq.2, price, line⟩], acc.2 + line))
    ([], 0)

/-- The buyer form of the checkout POST. -/
structure CheckoutForm where
  buyer_name : String
  buyer_contact : String
  address : String
  note : String
  deriving Repr, DecidableEq

inductive Method where
  | get
  | post
  deriving Repr, DecidableEq

/-- How a `/checkout` request returns. -/
inductive CheckoutResult where
  | redirectIndex
  | renderForm
  | validationError
  | committed (orderId : String)
  deriving Repr, DecidableEq

/-- The state a `/checkout` request leaves behind. -/
structure CheckoutOut where
  result : CheckoutResult
  orders : List Order
  cart : Cart
  deriving Repr, DecidableEq

/-- The order dict built on a successful commit.  `dateStr` stands for
`datetime.utcnow().strftime("%y%m%d")`, `token` for `secrets.token_hex(3)`
and `createdAt` for `datetime.utcnow().isoformat()`. -/
def mkOrder (dateStr token createdAt : String) (form : CheckoutForm)
    (lineItems : List LineItem) (total : Rat) (lang : String) : Order :=
  { id := "CH" ++ dateStr ++ token
    created_at := createdAt
    buyer_name := pyStrip form.buyer_name
    buyer_contact := pyStrip form.buyer_contact
    address := pyStrip form.address
    note := pyStrip form.note
    line_items := lineItems
    items := none
    total := total
    status := "new"
    lang := lang }

/-- The `/checkout` route: an empty cart redirects to the index on GET and
POST alike; a GET renders the form; a POST with blank (after trimming)
buyer name or contact re-renders with a warning, touching neither the orders
document nor the cart; otherwise the new order is prepended
(`payload["orders"].insert(0, order)`) and the cart cleared. -/
def checkout (ps : List Product) (orders : List Order) (c : Cart) (m : Method)
    (form : CheckoutForm) (dateStr token createdAt lang : String) : CheckoutOut :=
  if c = [] then ⟨.redirectIndex, orders, c⟩
  else
    let sn := snapshot ps c
    match m with
    | .get => ⟨.renderForm, orders, c⟩
    | .post =>
      if pyStrip form.buyer_name = "" ∨ pyStrip form.buyer_contact = "" then
        ⟨.validationError, orders, c⟩
      else
        let o := mkOrder dateStr token createdAt form sn.1 sn.2 lang
        ⟨.committed o.id, o :: orders, []⟩

/-! ### Orders CSV export -/

/-- A CSV field: `"\"" + str(x).replace("\"", "\"\"") + "\""`. -/
def csvField (s : String) : String :=
  "\"" ++ String.mk (escQuote s.data) ++ "\""

/-- The items column of one exported row:
`"; ".join([f"{i.get('slug')} x{i.get('qty')}" for i in (o.get("items") or [])])`.
Note the key read here is `"items"`, not `"line_items"`. -/
def itemsCell (o : Order) : String :=
  String.intercalate "; "
    ((o.items.getD []).map (fun i => i.slug ++ " x" ++ toString i.qty))

/-- One exported row of `export_orders`, before quoting; `showTotal` stands
for Python's `str()` on the float total. -/
def orderRow (showTotal : Rat → String) (o : Order) : List String :=
  [o.id, o.created_at, o.buyer_name, o.buyer_contact, showTotal o.total,
   o.status, itemsCell o]

/-- The header row of `export_orders`. -/
def headerRow : List String :=
  ["order_id", "created_at", "buyer_name", "buyer_contact", "total", "status", "items"]

/-- The full body of `export_orders`: header plus one row per order, each
field quoted, fields comma-joined, rows newline-joined, trailing newline. -/
def ordersCsv (showTotal : Rat → String) (orders : List Order) : String :=
  String.intercalate "\n"
    ((headerRow :: orders.map (orderRow showTotal)).map
      (fun r => String.intercalate "," (r.map csvField))) ++ "\n"

/-! ### Admin catalog mutations -/

/-- The form of an `action=add` admin request.  `token` stands for the
`secrets.token_hex(4)` draw used when no slug is supplied; `price` is the
already-parsed `float(form.get("price") or 0)`. -/
structure AddForm where
  slug : String
  token : String
  price : Rat
  title_zh : String
  title_en : String
  short_zh : String
  short_en : String
  desc_zh : String
  desc_en : String
  images : String
  deriving Repr, DecidableEq

/-- The form of an `action=save` admin request. -/
structure SaveForm where
  price : Rat
  title_zh : String
  title_en : String
  short_zh : String
  short_en : String
  desc_zh : String
  desc_en : String
  images : String
  deriving Repr, DecidableEq

/-- `[s.strip() for s in raw.split(",") if s.strip()]`. -/
def parseImages (raw : String) : List String :=
  ((pySplitComma raw).map pyStrip).filter (fun s => s ≠ "")

/-- One admin `POST /admin/product` request.  `other` covers an unrecognised
`action` value, which leaves the document as it was. -/
inductive AdminAction where
  | add (f : AddForm)
  | toggle (rawSlug : String)
  | save (rawSlug : String) (f : SaveForm)
  | delete (rawSlug : String)
  | other
  deriving Repr

/-- The slug an `add` ends up using:
`(form.get("slug") or "").strip().lower() or ("p" + secrets.token_hex(4))`. -/
def AddForm.newSlug (f : AddForm) : String :=
  let s := normSlug f.slug
  if s = "" then "p" ++ f.token else s

/-- The product dict an `add` inserts at the head of the list. -/
def AddForm.toProduct (f : AddForm) : Product :=
  { slug := f.newSlug
    active := some true
    price := some f.price
    title_zh := if pyStrip f.title_zh = "" then "新窗花" else pyStrip f.title_zh
    title_en := if pyStrip f.title_en = "" then "New paper-cut" else pyStrip f.title_en
    short_zh := pyStrip f.short_zh
    short_en := pyStrip f.short_en
    desc_zh := pyStrip f.desc_zh
    desc_en := pyStrip f.desc_en
    images := parseImages f.images }

/-- Rewrite the first product whose slug matches, as the
`for p in products: ... break` loop does. -/
def updateFirst (f : Product → Product) (slug : String) : List Product → List Product
  | [] => []
  | p :: ps => if p.slug = slug then f p :: ps else p :: updateFirst f slug ps

/-- The field assignments of `action=save` on the matched product. -/
def applySave (f : SaveForm) (p : Product) : Product :=
  { p with
    price := some f.price
    title_zh := pyStrip f.title_zh
    title_en := pyStrip f.title_en
    short_zh := pyStrip f.short_zh
    short_en := pyStrip f.short_en
    desc_zh := pyStrip f.desc_zh
    desc_en := pyStrip f.desc_en
    images := parseImages f.images }

/-- The products-document effect of one `POST /admin/product`:
* `add` inserts the new product at index 0 — with no check that the slug is
  not already present;
* `toggle` flips `not bool(p.get("active", True))` on the first match;
* `save` overwrites the editable fields of the first match;
* `delete` keeps `[x for x in products if x.get("slug") != slug]` (when no
  product matches, the loop never runs and the document is written back
  unchanged — extensionally the same filter).
-/
def adminProduct : AdminAction → List Product → List Product
  | .add f, ps => f.toProduct :: ps
  | .toggle raw, ps => updateFirst (fun p => { p with active := some (!p.activeD) }) (normSlug raw) ps
  | .save raw f, ps => updateFirst (applySave f) (normSlug raw) ps
  | .delete raw, ps =>
    let slug := normSlug raw
    ps.filter (fun p => p.slug ≠ slug)
  | .other, ps => ps

/-- Apply a sequence of admin requests to the products document. -/
def applyAdmin : List AdminAction → List Product → List Product
  | [], ps => ps
  | a :: acts, ps => applyAdmin acts (adminProduct a ps)

/-- The slugs of a catalog, in stored order. -/
def slugsOf (ps : List Product) : List String := ps.map (fun p => p.slug)

/-- One action is "fresh" on a catalog when, if it is an `add`, the slug it
will use is not already present. -/
def freshStep : AdminAction → List Product → Bool
  | .add f, ps => decide (f.newSlug ∉ slugsOf ps)
  | _, _ => true

/-- `freshAdds acts ps` holds when, replaying `acts` from `ps`, every `add`
uses a slug not present in the catalog at the moment it runs. -/
def freshAdds : List AdminAction → List Product → Bool
  | [], _ => true
  | a :: rest, ps => freshStep a ps && freshAdds rest (adminProduct a ps)

/-! ### The three persisted documents together -/

/-- A contact message as prepended by the `/message` route. -/
structure Message where
  created_at : String
  name : String
  contact : String
  message : String
  lang : String
  deriving Repr, DecidableEq

/-- The on-disk state: the three documents `products.json`, `orders.json`
and `messages.json`. -/
structure Store where
  products : List Product
  orders : List Order
  messages : List Message
  deriving Repr, DecidableEq

/-- A `POST /admin/product` request against the whole store: the handler
reads and writes `PRODUCTS_PATH` only (`_write_json(PRODUCTS_PATH, payload)`
is its sole write), so the orders and messages documents are carried over. -/
def adminProductStore (a : AdminAction) (s : Store) : Store :=
  { s with products := adminProduct a s.products }

/-- A sequence of admin catalog requests against the store. -/
def applyAdminStore : List AdminAction → Store → Store
  | [], s => s
  | a :: acts, s => applyAdminStore acts (adminProductStore a s)

/-- Order lookup by id (how a committed order is re-fetched). -/
def findOrder (orders : List Order) (oid : String) : Option Order :=
  orders.find? (fun o => o.id = oid)

/-! ### Document store: `_read_json` and `_write_json` -/

/-- What the filesystem can present at a path when `_read_json` opens it:
the file may be missing, unreadable (permission or I/O error), or hold some
byte content. -/
inductive FileState where
  | missing
  | unreadable
  | content (s : String)
  deriving Repr, DecidableEq

/-- `_read_json(path, default)`: any exception from `open` (missing or
unreadable file) or from `json.load` (malformed content, modelled by the
parse function returning `none`) is absorbed and the default returned; a
total function, so no error can escape. -/
def readJson {α : Type} (parse : String → Option α) (fs : FileState) (default : α) : α :=
  match fs with
  | .missing => default
  | .unreadable => default
  | .content s =>
    match parse s with
    | some doc => doc
    | none => default

/-- A flat filesystem: contents by path (`none` = no file). -/
def FS : Type := String → Option String

/-- The primitive filesystem steps `_write_json` performs after the
`os.makedirs` (which touches directories only, not file contents). -/
inductive FsOp where
  | writeFile (path content : String)
  | replace (src dst : String)
  deriving Repr

/-- Effect of one primitive step.  `os.replace(src, dst)` atomically moves
`src` onto `dst`: afterwards `dst` holds what `src` held and `src` is gone. -/
def applyOp (fs : FS) : FsOp → FS
  | .writeFile p c => fun q => if q = p then some c else fs q
  | .replace src dst => fun q => if q = dst then fs src else if q = src then none else fs q

/-- Run a sequence of primitive steps. -/
def applyOps (fs : FS) (ops : List FsOp) : FS :=
  ops.foldl applyOp fs

/-- `_write_json(path, payload)` as its sequence of filesystem steps:
serialize (the serialized document is the `payload` string here), write it
to `path + ".tmp"`, then `os.replace` the temporary onto the target. -/
def writeJsonOps (path payload : String) : List FsOp :=
  [.writeFile (path ++ ".tmp") payload, .replace (path ++ ".tmp") path]

/-! ### Concrete fixtures used by the closed theorems and witnesses -/

/-- An active demo product priced 10, slug `"a"`. -/
def pA : Product :=
  { slug := "a", active := some true, price := some 10,
    title_zh := "窗花A", title_en := "Paper-cut A", short_zh := "", short_en := "",
    desc_zh := "", desc_en := "", images := [] }

/-- An inactive demo product, slug `"b"`. -/
def pB : Product :=
  { slug := "b", active := some false, price := some 3,
    title_zh := "窗花B", title_en := "Paper-cut B", short_zh := "", short_en := "",
    desc_zh := "", desc_en := "", images := [] }

/-- The demo catalog. -/
def demoCatalog : List Product := [pA, pB]

/-- An add form that re-supplies the already-present slug `"a"`. -/
def demoAddA : AddForm :=
  { slug := "a", token := "9f3b2c1d", price := 5, title_zh := "", title_en := "",
    short_zh := "", short_en := "", desc_zh := "", desc_en := "", images := "" }

/-- An add form with the fresh slug `"c"`. -/
def demoAddC : AddForm :=
  { slug := "c", token := "0a1b2c3d", price := 7, title_zh := "", title_en := "",
    short_zh := "", short_en := "", desc_zh := "", desc_en := "", images := "x.jpg" }

/-- A toy parse function standing in for `json.load` in the witnesses. -/
def demoParse (s : String) : Option Nat :=
  if s = "[1]" then some 1 else none

/-! ### Helper lemmas -/

theorem one_le_clamp99 (q : Int) : 1 ≤ clamp99 q :=
  le_max_left 1 (min q 99)

theorem clamp99_le_99 (q : Int) : clamp99 q ≤ 99 :=
  max_le (by norm_num) (min_le_right q 99)

theorem mem_setKey {c : Cart} {k : String} {v : Int} {sq : String × Int}
    (h : sq ∈ setKey c k v) : sq = (k, v) ∨ sq ∈ c := by
  unfold setKey at h
  split at h
  · rcases List.mem_map.mp h with ⟨p, hp, heq⟩
    split at heq
    · exact Or.inl heq.symm
    · exact Or.inr (heq ▸ hp)
  · rcases List.mem_append.mp h with h1 | h2
    · exact Or.inr h1
    · exact Or.inl (List.mem_singleton.mp h2)

theorem mem_popKey {c : Cart} {k : String} {sq : String × Int}
    (h : sq ∈ popKey c k) : sq ∈ c :=
  List.mem_of_mem_filter h

theorem getD_zero_nonneg {c : Cart} {k : String}
    (h : ∀ sq ∈ c, 1 ≤ sq.2) : 0 ≤ getD c k 0 := by
  unfold getD
  cases hf : c.find? (fun sq => sq.1 = k) with
  | none => exact le_refl 0
  | some sq =>
    show 0 ≤ sq.2
    have := h sq (List.mem_of_find?_eq_some hf)
    omega

/-- `cart_add` preserves the lower bound on every stored quantity. -/
theorem cartAdd_lower_bound {ps : List Product} {c : Cart} {s : String} {q : Int}
    (h : ∀ sq ∈ c, 1 ≤ sq.2) : ∀ sq ∈ cartAdd ps c s q, 1 ≤ sq.2 := by
  intro sq hsq
  simp only [cartAdd] at hsq
  cases hf : findSlug ps (normSlug s) with
  | none => rw [hf] at hsq; exact h sq hsq
  | some p =>
    rw [hf] at hsq
    by_cases hact : p.activeD = true
    · simp only [hact, if_true] at hsq
      rcases mem_setKey hsq with heq | hmem
      · have h0 : 0 ≤ getD c (normSlug s) 0 := getD_zero_nonneg h
        have h1 : 1 ≤ clamp99 q := one_le_clamp99 q
        rw [heq]
        show 1 ≤ getD c (normSlug s) 0 + clamp99 q
        omega
      · exact h sq hmem
    · simp only [hact, if_false] at hsq
      exact h sq hsq

/-- Every entry of an updated cart either survives from the old cart or was
just set to a clamped value in `[1, 99]`. -/
theorem cartUpdateStep_mem {c : Cart} {kv : String × Int} {sq : String × Int}
    (h : sq ∈ cartUpdateStep c kv) : sq ∈ c ∨ (1 ≤ sq.2 ∧ sq.2 ≤ 99) := by
  unfold cartUpdateStep at h
  split at h
  · split at h
    · exact Or.inl (mem_popKey h)
    · rcases mem_setKey h with heq | hmem
      · refine Or.inr ?_
        rw [heq]
        exact ⟨one_le_clamp99 kv.2, clamp99_le_99 kv.2⟩
      · exact Or.inl hmem
  · exact Or.inl h

theorem cartUpdate_mem {form : List (String × Int)} :
    ∀ {c : Cart} {sq : String × Int}, sq ∈ cartUpdate form c →
      sq ∈ c ∨ (1 ≤ sq.2 ∧ sq.2 ≤ 99) := by
  induction form with
  | nil => intro c sq h; exact Or.inl h
  | cons kv rest ih =>
    intro c sq h
    rcases ih h with hmem | hb
    · rcases cartUpdateStep_mem hmem with h1 | h2
      · exact Or.inl h1
      · exact Or.inr h2
    · exact Or.inr hb

theorem cartUpdate_lower_bound {form : List (String × Int)} {c : Cart}
    (h : ∀ sq ∈ c, 1 ≤ sq.2) : ∀ sq ∈ cartUpdate form c, 1 ≤ sq.2 := by
  intro sq hsq
  rcases cartUpdate_mem hsq with hmem | hb
  · exact h sq hmem
  · exact hb.1

theorem applyCartOps_lower_bound {ps : List Product} :
    ∀ (ops : List CartOp) (c : Cart), (∀ sq ∈ c, 1 ≤ sq.2) →
      ∀ sq ∈ applyCartOps ps c ops, 1 ≤ sq.2 := by
  intro ops
  induction ops with
  | nil => intro c h; exact h
  | cons op rest ih =>
    intro c h
    refine ih (applyCartOp ps c op) ?_
    cases op with
    | add s q => exact cartAdd_lower_bound h
    | update form => exact cartUpdate_lower_bound h

theorem slugsOf_cons (p : Product) (ps : List Product) :
    slugsOf (p :: ps) = p.slug :: slugsOf ps := rfl

/-- Rewriting the first matching product does not change the slug column as
long as the rewrite preserves the slug field. -/
theorem slugsOf_updateFirst (f : Product → Product) (slug : String)
    (hf : ∀ p, (f p).slug = p.slug) :
    ∀ ps : List Product, slugsOf (updateFirst f slug ps) = slugsOf ps := by
  intro ps
  induction ps with
  | nil => rfl
  | cons p ps ih =>
    unfold updateFirst
    split
    · rw [slugsOf_cons, slugsOf_cons, hf]
    · rw [slugsOf_cons, slugsOf_cons, ih]

/-- One admin request keeps the slug column duplicate-free, provided an
`add` uses a slug not currently present. -/
theorem adminProduct_nodup (a : AdminAction) (ps : List Product)
    (hn : (slugsOf ps).Nodup)
    (hfresh : match a with | .add f => f.newSlug ∉ slugsOf ps | _ => True) :
    (slugsOf (adminProduct a ps)).Nodup := by
  cases a with
  | add f =>
    rw [adminProduct, slugsOf_cons]
    exact List.nodup_cons.mpr ⟨hfresh, hn⟩
  | toggle raw =>
    rw [adminProduct,
      slugsOf_updateFirst (fun p => { p with active := some (!p.activeD) }) (normSlug raw)
        (fun p => rfl)]
    exact hn
  | save raw f =>
    rw [adminProduct,
      slugsOf_updateFirst (applySave f) (normSlug raw) (fun p => rfl)]
    exact hn
  | delete raw =>
    refine List.Nodup.sublist ?_ hn
    exact List.Sublist.map _ (List.filter_sublist ps)
  | other => exact hn

/-- The target path is never its own temporary path. -/
theorem ne_append_tmp (p : String) : p ≠ p ++ ".tmp" := by
  intro h
  have hl : p.length = (p ++ ".tmp").length := by rw [← h]
  rw [String.length_append] at hl
  have h4 : ".tmp".length = 4 := rfl
  omega

/-! ### The claims -/

/-- C1: the export builds its items column from the dict key `items`, which
`checkout` never writes — the snapshot is stored under `line_items` — so an
order committed through checkout exports an EMPTY items field, not its line
items.  First conjunct: on every order built by `checkout`'s `mkOrder` the
items cell is empty.  Remaining conjuncts evaluate the failing input: the
committed demo order's line items render as `a x2` under the spec's intended
format, yet the export's items cell for it is `""`. -/
theorem export_items_cell_empty_for_committed_order :
    (∀ (dateStr token createdAt : String) (form : CheckoutForm)
        (lineItems : List LineItem) (total : Rat) (lang : String),
      itemsCell (mkOrder dateStr token createdAt form lineItems total lang) = "") ∧
    (checkout demoCatalog [] [("a", 2)] .post ⟨"Li", "555-0100", "", ""⟩
        "250101" "ab12cd" "t0" "en").orders.map
        (fun o => String.intercalate "; "
          (o.line_items.map (fun i => i.slug ++ " x" ++ toString i.qty))) = ["a x2"] ∧
    (checkout demoCatalog [] [("a", 2)] .post ⟨"Li", "555-0100", "", ""⟩
        "250101" "ab12cd" "t0" "en").orders.map itemsCell = [""] := by
  refine ⟨fun _ _ _ _ _ _ _ => rfl, by decide, by decide⟩

/-- C2 counterexample: from the empty cart, two `cart_add`s of quantity 99
for the active slug `a` leave the stored quantity at 198 — `cart_add` never
re-clamps the combined quantity, so the claimed `[1, 99]` bound is false. -/
theorem cart_add_exceeds_bound :
    getD (applyCartOps demoCatalog [] [.add "a" 99, .add "a" 99]) "a" 0 = 198 ∧
    ∃ sq ∈ applyCartOps demoCatalog [] [.add "a" 99, .add "a" 99], 99 < sq.2 :=
  ⟨by decide, by decide⟩

/-- C2 (amended): after any add/update sequence from the empty cart every
stored quantity is at least 1; `cart_update` removes a line on qty ≤ 0 and
otherwise sets a quantity clamped into `[1, 99]`, while `cart_add` clamps
only the incoming quantity to `[1, 99]` before adding it to the stored one,
so combining can exceed 99 and only the lower bound is invariant. -/
theorem cart_quantities_at_least_one (ps : List Product) :
    (∀ ops : List CartOp, ∀ sq ∈ applyCartOps ps [] ops, 1 ≤ sq.2) ∧
    (∀ (form : List (String × Int)) (c : Cart), ∀ sq ∈ cartUpdate form c,
      sq ∈ c ∨ (1 ≤ sq.2 ∧ sq.2 ≤ 99)) := by
  constructor
  · intro ops sq hsq
    exact applyCartOps_lower_bound ops []
      (fun sq h => absurd h (List.not_mem_nil sq)) sq hsq
  · intro form c sq hsq
    exact cartUpdate_mem hsq

/-- C2 witness: the invariant applied to the concrete double-add run. -/
theorem cart_quantities_at_least_one_witness :
    1 ≤ (("a", (198 : Int))).2 :=
  (cart_quantities_at_least_one demoCatalog).1 [.add "a" 99, .add "a" 99]
    ("a", 198) (by decide)

/-- C3 counterexample: the demo catalog has pairwise-distinct slugs, yet one
admin `add` that re-supplies the existing slug `a` leaves two products with
slug `a` — `add` inserts unconditionally, with no uniqueness check. -/
theorem admin_add_duplicates_slug :
    (slugsOf demoCatalog).Nodup ∧
    ¬ (slugsOf (adminProduct (.add demoAddA) demoCatalog)).Nodup :=
  ⟨by decide, by decide⟩

/-- C3 (amended): `toggle`, `save` and `delete` always preserve slug
distinctness, and so does `add` whenever the slug it ends up using (the
supplied one, or `p` plus the generated hex token) is not already in the
catalog at that moment; an `add` whose effective slug is already present
inserts a duplicate instead. -/
theorem catalog_slug_uniqueness (acts : List AdminAction) (ps : List Product)
    (hn : (slugsOf ps).Nodup) (hf : freshAdds acts ps = true) :
    (slugsOf (applyAdmin acts ps)).Nodup := by
  induction acts generalizing ps with
  | nil => exact hn
  | cons a rest ih =>
    rw [freshAdds, Bool.and_eq_true] at hf
    refine ih (adminProduct a ps) (adminProduct_nodup a ps hn ?_) hf.2
    have hs := hf.1
    cases a with
    | add f =>
      rw [freshStep] at hs
      exact of_decide_eq_true hs
    | toggle raw => trivial
    | save raw f => trivial
    | delete raw => trivial
    | other => trivial

/-- C3 witness: a fresh add, a toggle and a delete on the demo catalog keep
the slug column duplicate-free. -/
theorem catalog_slug_uniqueness_witness :
    (slugsOf (applyAdmin [.add demoAddC, .toggle "a", .delete "zz"] demoCatalog)).Nodup :=
  catalog_slug_uniqueness [.add demoAddC, .toggle "a", .delete "zz"] demoCatalog
    (by decide) (by decide)

/-- C4: a checkout POST on a non-empty cart with blank (after stripping)
buyer name or contact fails as a validation error, leaving the orders
document and the cart untouched; with both non-empty the freshly-built order
is prepended to the orders document and the cart is cleared. -/
theorem checkout_validation_and_commit (ps : List Product) (orders : List Order)
    (c : Cart) (form : CheckoutForm) (dateStr token createdAt lang : String)
    (hc : c ≠ []) :
    ((pyStrip form.buyer_name = "" ∨ pyStrip form.buyer_contact = "") →
      checkout ps orders c .post form dateStr token createdAt lang =
        ⟨.validationError, orders, c⟩) ∧
    (pyStrip form.buyer_name ≠ "" → pyStrip form.buyer_contact ≠ "" →
      checkout ps orders c .post form dateStr token createdAt lang =
        ⟨.committed ("CH" ++ dateStr ++ token),
          mkOrder dateStr token createdAt form (snapshot ps c).1 (snapshot ps c).2 lang
            :: orders, []⟩) := by
  constructor
  · intro hv
    unfold checkout
    rw [if_neg hc]
    show (if pyStrip form.buyer_name = "" ∨ pyStrip form.buyer_contact = ""
      then (⟨.validationError, orders, c⟩ : CheckoutOut)
      else ⟨.committed ("CH" ++ dateStr ++ token),
        mkOrder dateStr token createdAt form (snapshot ps c).1 (snapshot ps c).2 lang
          :: orders, []⟩) = ⟨.validationError, orders, c⟩
    rw [if_pos hv]
  · intro h1 h2
    have hv : ¬ (pyStrip form.buyer_name = "" ∨ pyStrip form.buyer_contact = "") := by
      rw [not_or]; exact ⟨h1, h2⟩
    unfold checkout
    rw [if_neg hc]
    show (if pyStrip form.buyer_name = "" ∨ pyStrip form.buyer_contact = ""
      then (⟨.validationError, orders, c⟩ : CheckoutOut)
      else ⟨.committed ("CH" ++ dateStr ++ token),
        mkOrder dateStr token createdAt form (snapshot ps c).1 (snapshot ps c).2 lang
          :: orders, []⟩) =
      ⟨.committed ("CH" ++ dateStr ++ token),
        mkOrder dateStr token createdAt form (snapshot ps c).1 (snapshot ps c).2 lang
          :: orders, []⟩
    rw [if_neg hv]

/-- C4 witness: both branches on the demo catalog — a blank buyer name is
rejected with cart and ledger untouched; a filled form commits and clears. -/
theorem checkout_validation_and_commit_witness :
    (checkout demoCatalog [] [("a", 2)] .post ⟨"", "555-0100", "", ""⟩
        "250101" "ab12cd" "t0" "en" = ⟨.validationError, [], [("a", 2)]⟩) ∧
    (checkout demoCatalog [] [("a", 2)] .post ⟨"Li", "555-0100", "", ""⟩
        "250101" "ab12cd" "t0" "en" =
      ⟨.committed ("CH" ++ "250101" ++ "ab12cd"),
        mkOrder "250101" "ab12cd" "t0" ⟨"Li", "555-0100", "", ""⟩
          (snapshot demoCatalog [("a", 2)]).1 (snapshot demoCatalog [("a", 2)]).2 "en"
          :: [], []⟩) :=
  ⟨(checkout_validation_and_commit demoCatalog [] [("a", 2)] ⟨"", "555-0100", "", ""⟩
      "250101" "ab12cd" "t0" "en" (by decide)).1 (Or.inl (by decide)),
   (checkout_validation_and_commit demoCatalog [] [("a", 2)] ⟨"Li", "555-0100", "", ""⟩
      "250101" "ab12cd" "t0" "en" (by decide)).2 (by decide) (by decide)⟩

/-- C5: `_read_json` never fails: a missing or unreadable file, or content
the parser rejects, yields the supplied default, and parseable content
yields the parsed document — a malformed or missing persisted collection is
observed as the default (empty) collection, never as an error. -/
theorem read_json_total_spec {α : Type} (parse : String → Option α) (dflt : α) :
    readJson parse .missing dflt = dflt ∧
    readJson parse .unreadable dflt = dflt ∧
    (∀ s, parse s = none → readJson parse (.content s) dflt = dflt) ∧
    (∀ s doc, parse s = some doc → readJson parse (.content s) dflt = doc) := by
  refine ⟨rfl, rfl, ?_, ?_⟩
  · intro s hs
    show (match parse s with | some doc => doc | none => dflt) = dflt
    rw [hs]
  · intro s doc hs
    show (match parse s with | some doc => doc | none => dflt) = doc
    rw [hs]

/-- C5 witness: the spec applied to a toy parser. -/
theorem read_json_total_spec_witness :
    readJson demoParse .missing 0 = 0 ∧
    readJson demoParse .unreadable 0 = 0 ∧
    readJson demoParse (.content "oops") 0 = 0 ∧
    readJson demoParse (.content "[1]") 0 = 1 :=
  ⟨(read_json_total_spec demoParse 0).1,
   (read_json_total_spec demoParse 0).2.1,
   (read_json_total_spec demoParse 0).2.2.1 "oops" (by decide),
   (read_json_total_spec demoParse 0).2.2.2 "[1]" 1 (by decide)⟩

/-- C6: `_write_json` writes the serialized payload to `path + ".tmp"` and
then atomically renames it onto `path`: after the temporary write but before
the final replace the target still holds its previous content unchanged,
and after the replace the target holds exactly the new payload and the
temporary file is gone — no partially-written target is ever observable. -/
theorem write_json_atomic_replace (fs : FS) (path payload : String) :
    applyOps fs ((writeJsonOps path payload).take 1) path = fs path ∧
    applyOps fs (writeJsonOps path payload) path = some payload ∧
    applyOps fs (writeJsonOps path payload) (path ++ ".tmp") = none := by
  have hne : path ≠ path ++ ".tmp" := ne_append_tmp path
  have hne' : path ++ ".tmp" ≠ path := Ne.symm hne
  refine ⟨?_, ?_, ?_⟩ <;>
    simp [applyOps, writeJsonOps, applyOp, List.take, hne, hne']

/-- C7: every sequence of admin catalog requests (add, toggle, save, delete
— any slugs, including ones referenced by existing orders) writes only the
products document: the orders document (and the messages document) is left
exactly as it was, so re-fetching any committed order by id afterwards
returns the same order with its commit-time line-item prices. -/
theorem admin_requests_preserve_orders (acts : List AdminAction) (s : Store) :
    (applyAdminStore acts s).orders = s.orders ∧
    (applyAdminStore acts s).messages = s.messages ∧
    ∀ oid, findOrder (applyAdminStore acts s).orders oid = findOrder s.orders oid := by
  have key : ∀ (acts : List AdminAction) (s : Store),
      (applyAdminStore acts s).orders = s.orders ∧
      (applyAdminStore acts s).messages = s.messages := by
    intro acts
    induction acts with
    | nil => intro s; exact ⟨rfl, rfl⟩
    | cons a rest ih =>
      intro s
      rcases ih (adminProductStore a s) with ⟨h1, h2⟩
      exact ⟨h1, h2⟩
  rcases key acts s with ⟨h1, h2⟩
  exact ⟨h1, h2, fun oid => by rw [h1]⟩

/-- C8: listing with `include_inactive` returns the whole stored sequence;
without it, exactly the products whose `active` field (defaulting to true
when absent) is true, as a sublist — so in stored order. -/
theorem catalog_list_spec (ps : List Product) :
    catalogList true ps = ps ∧
    (catalogList false ps).Sublist ps ∧
    ∀ p : Product, p ∈ catalogList false ps ↔ p ∈ ps ∧ p.activeD = true := by
  refine ⟨rfl, List.filter_sublist ps, ?_⟩
  intro p
  simp [catalogList, List.mem_filter]

/-- C9: a `cart_add` whose slug does not resolve through `_find`, or
resolves to a product whose `active` field is false, redirects without
touching the session cart. -/
theorem cart_add_unresolvable_noop (ps : List Product) (c : Cart)
    (rawSlug : String) (q : Int)
    (h : ∀ p, findSlug ps (normSlug rawSlug) = some p → p.activeD = false) :
    cartAdd ps c rawSlug q = c := by
  simp only [cartAdd]
  cases hf : findSlug ps (normSlug rawSlug) with
  | none => rfl
  | some p => simp [h p hf]

/-- C9 witness: adding the inactive slug `b` leaves the cart unchanged. -/
theorem cart_add_unresolvable_noop_witness :
    cartAdd demoCatalog [("a", 2)] "b" 5 = [("a", 2)] :=
  cart_add_unresolvable_noop demoCatalog [("a", 2)] "b" 5 (by
    intro p hp
    rw [show findSlug demoCatalog (normSlug "b") = some pB from by decide] at hp
    cases hp
    decide)

/-- C10: a `/checkout` request, GET or POST, made while the session cart is
empty redirects to the index and leaves the orders document and the (empty)
cart unchanged — the commit path is never reached. -/
theorem checkout_empty_cart_redirects (ps : List Product) (orders : List Order)
    (m : Method) (form : CheckoutForm) (dateStr token createdAt lang : String) :
    checkout ps orders [] m form dateStr token createdAt lang =
      ⟨.redirectIndex, orders, []⟩ := by
  unfold checkout
  rw [if_pos rfl]

end Chuanghua
